import Mathlib

/-!
# Verification of the Monobank MCP server (`src/index.ts`)

Shallow embedding of the TypeScript source into Lean 4.

Modelling conventions:
* JavaScript numbers are modelled as exact rationals (`ℚ`); upstream
  monetary fields are integers in minor units, and the spec demands the
  division by 100 be exact, so `ℚ` captures the intended arithmetic.
* Transaction timestamps (`StatementItem.time`) are modelled as `Int`
  Unix seconds; `Date.prototype.toISOString` is modelled for instants
  between `1970-01-01T00:00:00Z` and `9999-12-31T23:59:59Z` (the range
  where the JS output uses four-digit years), which covers every valid
  Unix-seconds bank timestamp.
* `fetch` and `Date.now()` are modelled by an explicit environment
  (`Env`): the outcome of each upstream request and the current clock are
  inputs, and every function returns the list of outbound requests it
  issued, so "zero network calls" is the statement that the list is empty.
* Thrown JS exceptions are modelled with `Except`; a `ZodError` is a
  distinct constructor from a plain `Error` message, mirroring the two
  classes thrown by the source.
-/

/-! ## JSON values (JS runtime values crossing the tool boundary) -/

/-- A JavaScript/JSON value as received by the tool layer.  `undefined` models
the JS `undefined` value (absent object key). -/
inductive JsonValue where
  | str (s : String)
  | num (n : ℚ)
  | bool (b : Bool)
  | null
  | undefined
  | arr (elems : List JsonValue)
  | obj (fields : List (String × JsonValue))

/-- The `typeof`-style tag zod reports for a value (`received` field of an
`invalid_type` issue). -/
def jsTypeName : JsonValue → String
  | .str _ => "string"
  | .num _ => "number"
  | .bool _ => "boolean"
  | .null => "null"
  | .undefined => "undefined"
  | .arr _ => "array"
  | .obj _ => "object"

/-- Property access `fields[k]` on a JS object: a missing key reads as
`undefined`. -/
def getField (fields : List (String × JsonValue)) (k : String) : JsonValue :=
  (fields.lookup k).getD .undefined

/-! ## Data model (`interface` declarations of `src/index.ts`) -/

/-- `interface Account` of `src/index.ts`. -/
structure Account where
  id : String
  sendId : String
  balance : ℚ
  creditLimit : ℚ
  type : String
  currencyCode : ℚ
  cashbackType : String
  maskedPan : List String
  iban : String
deriving DecidableEq

/-- `interface Jar` of `src/index.ts`. -/
structure Jar where
  id : String
  sendId : String
  title : String
  description : Option String
  currencyCode : ℚ
  balance : ℚ
  goal : Option ℚ
deriving DecidableEq

/-- `interface ClientInfo` of `src/index.ts`. -/
structure ClientInfo where
  clientId : String
  name : String
  webHookUrl : String
  permissions : String
  accounts : List Account
  jars : Option (List Jar)
deriving DecidableEq

/-- `interface StatementItem` of `src/index.ts` (raw upstream shape).
`time` is an integral Unix-seconds timestamp. -/
structure StatementItem where
  id : String
  time : Int
  description : String
  mcc : ℚ
  originalMcc : ℚ
  hold : Bool
  amount : ℚ
  operationAmount : ℚ
  currencyCode : ℚ
  commissionRate : ℚ
  cashbackAmount : ℚ
  balance : ℚ
  comment : Option String
  receiptId : Option String
  invoiceId : Option String
  counterEdrpou : Option String
  counterIban : Option String
  counterName : Option String
deriving DecidableEq

/-- `interface ProcessedStatementItem` of `src/index.ts` (normalized
shape returned by `get_statement`). -/
structure ProcessedStatementItem where
  time : String
  description : String
  mcc : ℚ
  originalMcc : ℚ
  hold : Bool
  amount : ℚ
  operationAmount : ℚ
  currencyCode : ℚ
  commissionRate : ℚ
  cashbackAmount : ℚ
  balance : ℚ
  comment : Option String
  receiptId : Option String
  counterName : Option String
deriving DecidableEq

/-- The JSON-object view of a normalized item, as produced by
`JSON.stringify` on the object literal of `src/index.ts` lines 167-182:
keys appear in literal order and keys whose value is `undefined` are
omitted from the serialized object. -/
def ProcessedStatementItem.toJsonObj (p : ProcessedStatementItem) :
    List (String × JsonValue) :=
  [("time", .str p.time), ("description", .str p.description),
   ("mcc", .num p.mcc), ("originalMcc", .num p.originalMcc),
   ("hold", .bool p.hold), ("amount", .num p.amount),
   ("operationAmount", .num p.operationAmount),
   ("currencyCode", .num p.currencyCode),
   ("commissionRate", .num p.commissionRate),
   ("cashbackAmount", .num p.cashbackAmount),
   ("balance", .num p.balance)]
  ++ (match p.comment with | none => [] | some s => [("comment", JsonValue.str s)])
  ++ (match p.receiptId with | none => [] | some s => [("receiptId", JsonValue.str s)])
  ++ (match p.counterName with | none => [] | some s => [("counterName", JsonValue.str s)])

/-! ## Calendar arithmetic (model of `new Date(seconds * 1000).toISOString()`)

The source calls the JS builtin; these definitions model it for instants
from `1970-01-01T00:00:00Z` up to `9999-12-31T23:59:59Z` by scanning
years from 1970 (fuel-bounded structural recursion, so everything
evaluates inside the kernel). -/

/-- Gregorian leap-year test. -/
def isLeap (y : Nat) : Bool := (y % 4 == 0 && y % 100 != 0) || y % 400 == 0

/-- Number of days in year `y`. -/
def daysInYear (y : Nat) : Nat := if isLeap y then 366 else 365

/-- Month lengths (January to December) of a (non-)leap year. -/
def monthLengths (leap : Bool) : List Nat :=
  [31, if leap then 29 else 28, 31, 30, 31, 30, 31, 31, 30, 31, 30, 31]

/-- Starting from year `y` with `d` days remaining, step forward whole
years while they fit; returns `(year, day-of-year)` (0-based). -/
def findYear : Nat → Nat → Nat → Nat × Nat
  | 0, y, d => (y, d)
  | fuel + 1, y, d =>
      if d < daysInYear y then (y, d) else findYear fuel (y + 1) (d - daysInYear y)

/-- Starting from month number `m` with `d` days remaining, step forward
whole months while they fit; returns `(month, day-of-month)` (0-based). -/
def findMonth : List Nat → Nat → Nat → Nat × Nat
  | [], m, d => (m, d)
  | len :: rest, m, d =>
      if d < len then (m, d) else findMonth rest (m + 1) (d - len)

/-- Total number of days of the `n` consecutive years starting at `y`. -/
def daysBetween (y : Nat) : Nat → Nat
  | 0 => 0
  | n + 1 => daysInYear y + daysBetween (y + 1) n

/-- Days since the Unix epoch of the civil date `y-m-d` (for `y ≥ 1970`,
`m`, `d` 1-based). -/
def daysFromCivil (y m d : Nat) : Nat :=
  daysBetween 1970 (y - 1970) + ((monthLengths (isLeap y)).take (m - 1)).sum + (d - 1)

/-- Number of days in month `m` (1-based) of year `y`. -/
def monthLen (y m : Nat) : Nat := (monthLengths (isLeap y)).getD (m - 1) 0

/-- Two decimal digits of `n % 100`. -/
def pad2 (n : Nat) : List Char :=
  [Nat.digitChar (n / 10 % 10), Nat.digitChar (n % 10)]

/-- Four decimal digits of `n % 10000`. -/
def pad4 (n : Nat) : List Char :=
  [Nat.digitChar (n / 1000 % 10), Nat.digitChar (n / 100 % 10),
   Nat.digitChar (n / 10 % 10), Nat.digitChar (n % 10)]

/-- Assemble the 24-character `YYYY-MM-DDThh:mm:ss.000Z` string. -/
def isoOfParts (y m d hh mi ss : Nat) : String :=
  String.mk (pad4 y ++ ['-'] ++ pad2 m ++ ['-'] ++ pad2 d ++ ['T'] ++ pad2 hh
    ++ [':'] ++ pad2 mi ++ [':'] ++ pad2 ss ++ ['.', '0', '0', '0', 'Z'])

/-- Model of `new Date(t * 1000).toISOString()` of `src/index.ts` line
165 for whole-second instants `0 ≤ t ≤ 253402300799` (years 1970-9999,
the four-digit-year range of the JS builtin). -/
def toISOString (t : Int) : String :=
  let n := t.toNat
  let days := n / 86400
  let sod := n % 86400
  let yd := findYear 9000 1970 days
  let md := findMonth (monthLengths (isLeap yd.1)) 1 yd.2
  isoOfParts yd.1 md.1 (md.2 + 1) (sod / 3600) (sod % 3600 / 60) (sod % 60)

/-- Numeric value of a decimal digit character. -/
def digVal (c : Char) : Nat := c.toNat - 48

/-- Specification-level ISO-8601 reader: accepts exactly the strings
`YYYY-MM-DDThh:mm:ss.sssZ` whose fields are decimal digits denoting a
real calendar instant (month 1-12, day within the month's length
including leap years, hour < 24, minute < 60, second < 60) with year in
the modelled range 1970-9999, and returns the denoted instant in Unix
milliseconds.  A string accepted by this reader is a valid ISO-8601 UTC
timestamp, and its result is the instant the string denotes. -/
def parseISOChars : List Char → Option Int
  | [y1, y2, y3, y4, c1, n1, n2, c2, d1, d2, c3, h1, h2, c4, i1, i2, c5,
     s1, s2, c6, f1, f2, f3, c7] =>
      if c1 = '-' ∧ c2 = '-' ∧ c3 = 'T' ∧ c4 = ':' ∧ c5 = ':' ∧ c6 = '.' ∧ c7 = 'Z'
          ∧ y1.isDigit ∧ y2.isDigit ∧ y3.isDigit ∧ y4.isDigit
          ∧ n1.isDigit ∧ n2.isDigit ∧ d1.isDigit ∧ d2.isDigit
          ∧ h1.isDigit ∧ h2.isDigit ∧ i1.isDigit ∧ i2.isDigit
          ∧ s1.isDigit ∧ s2.isDigit ∧ f1.isDigit ∧ f2.isDigit ∧ f3.isDigit then
        let y := 1000 * digVal y1 + 100 * digVal y2 + 10 * digVal y3 + digVal y4
        let mo := 10 * digVal n1 + digVal n2
        let dy := 10 * digVal d1 + digVal d2
        let hh := 10 * digVal h1 + digVal h2
        let mi := 10 * digVal i1 + digVal i2
        let ss := 10 * digVal s1 + digVal s2
        let ms := 100 * digVal f1 + 10 * digVal f2 + digVal f3
        if 1970 ≤ y ∧ y ≤ 9999 ∧ 1 ≤ mo ∧ mo ≤ 12 ∧ 1 ≤ dy ∧ dy ≤ monthLen y mo
            ∧ hh < 24 ∧ mi < 60 ∧ ss < 60 then
          some ((daysFromCivil y mo dy * 86400000
            + hh * 3600000 + mi * 60000 + ss * 1000 + ms : Nat) : Int)
        else none
      else none
  | _ => none

/-- The reader applied to a string's characters. -/
def parseISO8601UTC (s : String) : Option Int := parseISOChars s.data

/-! ## Argument validation (`GetStatementArgsSchema`, lines 83-87)

Model of `z.object({account_id: z.string(), from_timestamp: z.number(),
to_timestamp: z.number()})`: every declared key is checked (collecting
one `invalid_type` issue per offending field, in schema order), unknown
keys are stripped, and parsing succeeds exactly when no issue arose. -/

/-- One zod `invalid_type` issue: the path names the offending field. -/
structure ZodIssue where
  path : List String
  expected : String
  received : String
deriving DecidableEq

/-- The record produced by a successful `GetStatementArgsSchema.parse`. -/
structure GetStatementArgs where
  account_id : String
  from_timestamp : ℚ
  to_timestamp : ℚ
deriving DecidableEq

/-- `z.string()` check on one object field. -/
def strFieldIssues (fields : List (String × JsonValue)) (k : String) : List ZodIssue :=
  match getField fields k with
  | .str _ => []
  | v => [⟨[k], "string", jsTypeName v⟩]

/-- `z.number()` check on one object field. -/
def numFieldIssues (fields : List (String × JsonValue)) (k : String) : List ZodIssue :=
  match getField fields k with
  | .num _ => []
  | v => [⟨[k], "number", jsTypeName v⟩]

/-- The value of a field that passed `z.string()`. -/
def strFieldVal (fields : List (String × JsonValue)) (k : String) : String :=
  match getField fields k with
  | .str s => s
  | _ => ""

/-- The value of a field that passed `z.number()`. -/
def numFieldVal (fields : List (String × JsonValue)) (k : String) : ℚ :=
  match getField fields k with
  | .num n => n
  | _ => 0

/-- Model of `GetStatementArgsSchema.parse` (line 142): succeeds iff the
argument is an object whose three declared fields have the declared
types; extra keys are ignored and stripped; on failure it throws a
`ZodError` carrying one issue per offending field. -/
def zodParseGetStatementArgs : JsonValue → Except (List ZodIssue) GetStatementArgs
  | .obj fields =>
      if strFieldIssues fields "account_id"
          ++ numFieldIssues fields "from_timestamp"
          ++ numFieldIssues fields "to_timestamp" = [] then
        .ok ⟨strFieldVal fields "account_id", numFieldVal fields "from_timestamp",
             numFieldVal fields "to_timestamp"⟩
      else
        .error (strFieldIssues fields "account_id"
          ++ numFieldIssues fields "from_timestamp"
          ++ numFieldIssues fields "to_timestamp")
  | v => .error [⟨[], "object", jsTypeName v⟩]

/-! ## Effectful environment and outcomes -/

/-- An upstream HTTP response: status, body as text (read on the error
path), and the JSON-decoded body (read on the success path). -/
structure HttpResponse (α : Type) where
  status : Nat
  bodyText : String
  body : α
deriving DecidableEq

/-- `Response.ok` of the Fetch API: status in the 200-299 range. -/
def statusOk (status : Nat) : Bool := 200 ≤ status && status ≤ 299

/-- The ambient world of one invocation: the credential environment
variable, the clock (`Date.now()`, milliseconds), and the outcome the
transport would deliver for each upstream call (`Except.error` models
`fetch` itself rejecting, e.g. DNS or connection failure). -/
structure Env where
  token : Option String
  nowMs : Int
  clientInfoResult : Except String (HttpResponse ClientInfo)
  statementResult : Except String (HttpResponse (List StatementItem))

/-- `process.env.MONOBANK_API_TOKEN || "X_TOKEN_PLACEHOLDER"` (lines 101
and 152): an absent or empty (falsy) token is replaced by the
placeholder. -/
def effectiveToken (env : Env) : String :=
  match env.token with
  | none => "X_TOKEN_PLACEHOLDER"
  | some t => if t = "" then "X_TOKEN_PLACEHOLDER" else t

/-- One outbound `fetch`, identified by endpoint, auth header and path
parameters. -/
inductive FetchRequest where
  | clientInfo (token : String)
  | statement (token : String) (accountId : String) (fromTs toTs : ℚ)
deriving DecidableEq

/-- A value thrown by the tool layer: either a `ZodError` (thrown by
`GetStatementArgsSchema.parse`) or a plain `Error` with its message. -/
inductive ThrownError where
  | zodError (issues : List ZodIssue)
  | jsError (msg : String)
deriving DecidableEq

/-- A successful tool outcome; the source serializes this value with
`JSON.stringify` into one text content block. -/
inductive ToolSuccess where
  | clientInfo (data : ClientInfo)
  | statement (items : List ProcessedStatementItem)
deriving DecidableEq

/-- Message of the inner `Error` thrown on a non-success HTTP status
(lines 107 and 159). -/
def httpErrorMsg (status : Nat) (body : String) : String :=
  "HTTP error! status: " ++ toString status ++ ", body: " ++ body

/-- The catch-block wrapper (lines 121 and 197). -/
def wrapMsg (m : String) : String := "Failed to connect to Monobank API: " ++ m

/-! ## The two tools and the dispatcher -/

/-- Model of `getClientInfo` (lines 89-125): one authenticated GET; a
non-2xx status or a transport failure is wrapped into a
`Failed to connect to Monobank API: ...` error; a 2xx response is
returned unmodified. The second component lists the requests issued. -/
def getClientInfo (env : Env) :
    Except ThrownError ToolSuccess × List FetchRequest :=
  match env.clientInfoResult with
  | .error e => (.error (.jsError (wrapMsg e)), [.clientInfo (effectiveToken env)])
  | .ok r =>
      if statusOk r.status then
        (.ok (.clientInfo r.body), [.clientInfo (effectiveToken env)])
      else
        (.error (.jsError (wrapMsg (httpErrorMsg r.status r.bodyText))),
         [.clientInfo (effectiveToken env)])

/-- The per-item normalization of `getStatement` (lines 164-185):
timestamp to ISO-8601, monetary and rate fields divided by 100, four
identifier fields dropped, the rest copied unchanged. -/
def processItem (item : StatementItem) : ProcessedStatementItem :=
  { time := toISOString item.time
    description := item.description
    mcc := item.mcc
    originalMcc := item.originalMcc
    hold := item.hold
    amount := item.amount / 100
    operationAmount := item.operationAmount / 100
    currencyCode := item.currencyCode
    commissionRate := item.commissionRate / 100
    cashbackAmount := item.cashbackAmount / 100
    balance := item.balance / 100
    comment := item.comment
    receiptId := item.receiptId
    counterName := item.counterName }

/-- Model of `getStatement` (lines 127-201).  Validation happens before
the `try` block and before any network call, so a `ZodError` escapes
unwrapped and with an empty request list.  `to_timestamp || Math.floor(
Date.now() / 1000)` substitutes the clock when `to_timestamp` is the
falsy number 0. -/
def getStatement (env : Env) (args : JsonValue) :
    Except ThrownError ToolSuccess × List FetchRequest :=
  match zodParseGetStatementArgs args with
  | .error issues => (.error (.zodError issues), [])
  | .ok parsed =>
      let finalToTimestamp : ℚ :=
        if parsed.to_timestamp = 0 then ((env.nowMs.fdiv 1000 : Int) : ℚ)
        else parsed.to_timestamp
      let req := FetchRequest.statement (effectiveToken env) parsed.account_id
        parsed.from_timestamp finalToTimestamp
      match env.statementResult with
      | .error e => (.error (.jsError (wrapMsg e)), [req])
      | .ok r =>
          if statusOk r.status then
            (.ok (.statement (r.body.map processItem)), [req])
          else
            (.error (.jsError (wrapMsg (httpErrorMsg r.status r.bodyText))), [req])

/-- Model of the `CallToolRequestSchema` handler (lines 252-261): route
on the operation name; any name other than the two known tools throws
`Unknown tool: <name>` without touching the network. -/
def handleCallTool (env : Env) (name : String) (args : JsonValue) :
    Except ThrownError ToolSuccess × List FetchRequest :=
  if name = "get_client_info" then getClientInfo env
  else if name = "get_statement" then getStatement env args
  else (.error (.jsError ("Unknown tool: " ++ name)), [])

/-- Substring containment, used to state what an error message carries. -/
def containsStr (msg sub : String) : Prop :=
  ∃ l r : List Char, msg.data = l ++ sub.data ++ r

/-! ## Calendar lemmas -/

theorem daysInYear_ge (y : Nat) : 365 ≤ daysInYear y := by
  unfold daysInYear; split <;> omega

theorem daysBetween_succ_left (y n : Nat) :
    daysBetween y (n + 1) = daysInYear y + daysBetween (y + 1) n := rfl

theorem daysBetween_add (a : Nat) : ∀ (y b : Nat),
    daysBetween y (a + b) = daysBetween y a + daysBetween (y + a) b := by
  induction a with
  | zero => intro y b; simp [daysBetween]
  | succ n ih =>
      intro y b
      have h1 : n + 1 + b = (n + b) + 1 := by omega
      rw [h1, daysBetween_succ_left, daysBetween_succ_left, ih (y + 1) b]
      have h2 : y + 1 + n = y + (n + 1) := by omega
      rw [h2, Nat.add_assoc]

theorem daysBetween_mono (y a b : Nat) (h : a ≤ b) :
    daysBetween y a ≤ daysBetween y b := by
  have hb : b = a + (b - a) := by omega
  rw [hb, daysBetween_add]
  exact Nat.le_add_right _ _

theorem findYear_spec : ∀ (fuel y d : Nat), d < daysBetween y fuel →
    y ≤ (findYear fuel y d).1 ∧
    (findYear fuel y d).1 - y < fuel ∧
    (findYear fuel y d).2 < daysInYear (findYear fuel y d).1 ∧
    daysBetween y ((findYear fuel y d).1 - y) + (findYear fuel y d).2 = d := by
  intro fuel
  induction fuel with
  | zero => intro y d h; simp [daysBetween] at h
  | succ n ih =>
      intro y d h
      unfold findYear
      by_cases hlt : d < daysInYear y
      · rw [if_pos hlt]
        refine ⟨Nat.le_refl y, by omega, hlt, ?_⟩
        simp [daysBetween]
      · rw [if_neg hlt]
        have hpre : d - daysInYear y < daysBetween (y + 1) n := by
          have := daysBetween_succ_left y n
          omega
        obtain ⟨h1, h2, h3, h4⟩ := ih (y + 1) (d - daysInYear y) hpre
        refine ⟨by omega, by omega, h3, ?_⟩
        have hk : (findYear n (y + 1) (d - daysInYear y)).1 - y =
            ((findYear n (y + 1) (d - daysInYear y)).1 - (y + 1)) + 1 := by omega
        rw [hk, daysBetween_succ_left]
        omega

theorem findMonth_spec : ∀ (lens : List Nat) (m d : Nat), d < lens.sum →
    m ≤ (findMonth lens m d).1 ∧
    (findMonth lens m d).1 - m < lens.length ∧
    (findMonth lens m d).2 < lens.getD ((findMonth lens m d).1 - m) 0 ∧
    (lens.take ((findMonth lens m d).1 - m)).sum + (findMonth lens m d).2 = d := by
  intro lens
  induction lens with
  | nil => intro m d h; simp [List.sum] at h
  | cons len rest ih =>
      intro m d h
      unfold findMonth
      by_cases hlt : d < len
      · rw [if_pos hlt]
        exact ⟨Nat.le_refl m, by simp, by simpa using hlt, by simp⟩
      · rw [if_neg hlt]
        have hpre : d - len < rest.sum := by
          simp [List.sum_cons] at h
          omega
        obtain ⟨h1, h2, h3, h4⟩ := ih (m + 1) (d - len) hpre
        refine ⟨by omega, by simp; omega, ?_, ?_⟩
        · have hk : (findMonth rest (m + 1) (d - len)).1 - m =
              ((findMonth rest (m + 1) (d - len)).1 - (m + 1)) + 1 := by omega
          rw [hk]
          simpa using h3
        · have hk : (findMonth rest (m + 1) (d - len)).1 - m =
              ((findMonth rest (m + 1) (d - len)).1 - (m + 1)) + 1 := by omega
          rw [hk, List.take_succ_cons, List.sum_cons]
          omega

theorem monthLengths_sum (b : Bool) : (monthLengths b).sum = if b then 366 else 365 := by
  cases b <;> rfl

theorem monthLengths_length (b : Bool) : (monthLengths b).length = 12 := by
  cases b <;> rfl

theorem daysBetween_lower (n : Nat) : ∀ y : Nat, 365 * n ≤ daysBetween y n := by
  induction n with
  | zero => intro y; simp [daysBetween]
  | succ k ih =>
      intro y
      rw [daysBetween_succ_left]
      have h1 := daysInYear_ge y
      have h2 := ih (y + 1)
      omega

set_option maxRecDepth 100000 in
theorem daysBetween_1970_400 : daysBetween 1970 400 = 146097 := by rfl

set_option maxRecDepth 100000 in
theorem daysBetween_2370_400 : daysBetween 2370 400 = 146097 := by rfl

set_option maxRecDepth 100000 in
theorem daysBetween_2770_400 : daysBetween 2770 400 = 146097 := by rfl

set_option maxRecDepth 100000 in
theorem daysBetween_3170_400 : daysBetween 3170 400 = 146097 := by rfl

set_option maxRecDepth 100000 in
theorem daysBetween_3570_400 : daysBetween 3570 400 = 146097 := by rfl

set_option maxRecDepth 100000 in
theorem daysBetween_3970_400 : daysBetween 3970 400 = 146097 := by rfl

set_option maxRecDepth 100000 in
theorem daysBetween_4370_400 : daysBetween 4370 400 = 146097 := by rfl

set_option maxRecDepth 100000 in
theorem daysBetween_4770_400 : daysBetween 4770 400 = 146097 := by rfl

set_option maxRecDepth 100000 in
theorem daysBetween_5170_400 : daysBetween 5170 400 = 146097 := by rfl

set_option maxRecDepth 100000 in
theorem daysBetween_5570_400 : daysBetween 5570 400 = 146097 := by rfl

set_option maxRecDepth 100000 in
theorem daysBetween_5970_400 : daysBetween 5970 400 = 146097 := by rfl

set_option maxRecDepth 100000 in
theorem daysBetween_6370_400 : daysBetween 6370 400 = 146097 := by rfl

set_option maxRecDepth 100000 in
theorem daysBetween_6770_400 : daysBetween 6770 400 = 146097 := by rfl

set_option maxRecDepth 100000 in
theorem daysBetween_7170_400 : daysBetween 7170 400 = 146097 := by rfl

set_option maxRecDepth 100000 in
theorem daysBetween_7570_400 : daysBetween 7570 400 = 146097 := by rfl

set_option maxRecDepth 100000 in
theorem daysBetween_7970_400 : daysBetween 7970 400 = 146097 := by rfl

set_option maxRecDepth 100000 in
theorem daysBetween_8370_400 : daysBetween 8370 400 = 146097 := by rfl

set_option maxRecDepth 100000 in
theorem daysBetween_8770_400 : daysBetween 8770 400 = 146097 := by rfl

set_option maxRecDepth 100000 in
theorem daysBetween_9170_400 : daysBetween 9170 400 = 146097 := by rfl

set_option maxRecDepth 100000 in
theorem daysBetween_9570_400 : daysBetween 9570 400 = 146097 := by rfl

set_option maxRecDepth 100000 in
theorem daysBetween_9970_30 : daysBetween 9970 30 = 10957 := by rfl

theorem daysBetween_1970_8030 : daysBetween 1970 8030 = 2932897 := by
  have h0 : daysBetween 1970 8030 = daysBetween 1970 400 + daysBetween 2370 7630 := by
    have h := daysBetween_add 400 1970 7630
    norm_num at h
    exact h
  have h1 : daysBetween 2370 7630 = daysBetween 2370 400 + daysBetween 2770 7230 := by
    have h := daysBetween_add 400 2370 7230
    norm_num at h
    exact h
  have h2 : daysBetween 2770 7230 = daysBetween 2770 400 + daysBetween 3170 6830 := by
    have h := daysBetween_add 400 2770 6830
    norm_num at h
    exact h
  have h3 : daysBetween 3170 6830 = daysBetween 3170 400 + daysBetween 3570 6430 := by
    have h := daysBetween_add 400 3170 6430
    norm_num at h
    exact h
  have h4 : daysBetween 3570 6430 = daysBetween 3570 400 + daysBetween 3970 6030 := by
    have h := daysBetween_add 400 3570 6030
    norm_num at h
    exact h
  have h5 : daysBetween 3970 6030 = daysBetween 3970 400 + daysBetween 4370 5630 := by
    have h := daysBetween_add 400 3970 5630
    norm_num at h
    exact h
  have h6 : daysBetween 4370 5630 = daysBetween 4370 400 + daysBetween 4770 5230 := by
    have h := daysBetween_add 400 4370 5230
    norm_num at h
    exact h
  have h7 : daysBetween 4770 5230 = daysBetween 4770 400 + daysBetween 5170 4830 := by
    have h := daysBetween_add 400 4770 4830
    norm_num at h
    exact h
  have h8 : daysBetween 5170 4830 = daysBetween 5170 400 + daysBetween 5570 4430 := by
    have h := daysBetween_add 400 5170 4430
    norm_num at h
    exact h
  have h9 : daysBetween 5570 4430 = daysBetween 5570 400 + daysBetween 5970 4030 := by
    have h := daysBetween_add 400 5570 4030
    norm_num at h
    exact h
  have h10 : daysBetween 5970 4030 = daysBetween 5970 400 + daysBetween 6370 3630 := by
    have h := daysBetween_add 400 5970 3630
    norm_num at h
    exact h
  have h11 : daysBetween 6370 3630 = daysBetween 6370 400 + daysBetween 6770 3230 := by
    have h := daysBetween_add 400 6370 3230
    norm_num at h
    exact h
  have h12 : daysBetween 6770 3230 = daysBetween 6770 400 + daysBetween 7170 2830 := by
    have h := daysBetween_add 400 6770 2830
    norm_num at h
    exact h
  have h13 : daysBetween 7170 2830 = daysBetween 7170 400 + daysBetween 7570 2430 := by
    have h := daysBetween_add 400 7170 2430
    norm_num at h
    exact h
  have h14 : daysBetween 7570 2430 = daysBetween 7570 400 + daysBetween 7970 2030 := by
    have h := daysBetween_add 400 7570 2030
    norm_num at h
    exact h
  have h15 : daysBetween 7970 2030 = daysBetween 7970 400 + daysBetween 8370 1630 := by
    have h := daysBetween_add 400 7970 1630
    norm_num at h
    exact h
  have h16 : daysBetween 8370 1630 = daysBetween 8370 400 + daysBetween 8770 1230 := by
    have h := daysBetween_add 400 8370 1230
    norm_num at h
    exact h
  have h17 : daysBetween 8770 1230 = daysBetween 8770 400 + daysBetween 9170 830 := by
    have h := daysBetween_add 400 8770 830
    norm_num at h
    exact h
  have h18 : daysBetween 9170 830 = daysBetween 9170 400 + daysBetween 9570 430 := by
    have h := daysBetween_add 400 9170 430
    norm_num at h
    exact h
  have h19 : daysBetween 9570 430 = daysBetween 9570 400 + daysBetween 9970 30 := by
    have h := daysBetween_add 400 9570 30
    norm_num at h
    exact h
  rw [h0, h1, h2, h3, h4, h5, h6, h7, h8, h9, h10, h11, h12, h13, h14, h15, h16, h17, h18, h19, daysBetween_1970_400, daysBetween_2370_400, daysBetween_2770_400, daysBetween_3170_400, daysBetween_3570_400, daysBetween_3970_400, daysBetween_4370_400, daysBetween_4770_400, daysBetween_5170_400, daysBetween_5570_400, daysBetween_5970_400, daysBetween_6370_400, daysBetween_6770_400, daysBetween_7170_400, daysBetween_7570_400, daysBetween_7970_400, daysBetween_8370_400, daysBetween_8770_400, daysBetween_9170_400, daysBetween_9570_400, daysBetween_9970_30]

/-! ## Round trip: the emitted string is valid ISO-8601 and denotes the
same instant -/

theorem digitChar_ok : ∀ k : Nat, k < 10 →
    (Nat.digitChar k).isDigit = true ∧ digVal (Nat.digitChar k) = k := by decide

theorem monthLen_le31 (y m : Nat) : monthLen y m ≤ 31 := by
  unfold monthLen monthLengths
  cases isLeap y <;>
    · rcases m with _ | m
      · simp [List.getD]
      · simp only [Nat.add_sub_cancel]
        rcases m with _ | _ | _ | _ | _ | _ | _ | _ | _ | _ | _ | _ | m <;>
          simp [List.getD]

theorem parseISO_isoOfParts (y m d hh mi ss : Nat)
    (hy1 : 1970 ≤ y) (hy2 : y ≤ 9999) (hm1 : 1 ≤ m) (hm2 : m ≤ 12)
    (hd1 : 1 ≤ d) (hd2 : d ≤ monthLen y m) (hhh : hh < 24) (hmi : mi < 60)
    (hss : ss < 60) :
    parseISO8601UTC (isoOfParts y m d hh mi ss) =
      some ((daysFromCivil y m d * 86400000 + hh * 3600000 + mi * 60000
        + ss * 1000 : Nat) : Int) := by
  obtain ⟨dy1, dy1v⟩ := digitChar_ok (y / 1000 % 10) (by omega)
  obtain ⟨dy2, dy2v⟩ := digitChar_ok (y / 100 % 10) (by omega)
  obtain ⟨dy3, dy3v⟩ := digitChar_ok (y / 10 % 10) (by omega)
  obtain ⟨dy4, dy4v⟩ := digitChar_ok (y % 10) (by omega)
  obtain ⟨dm1, dm1v⟩ := digitChar_ok (m / 10 % 10) (by omega)
  obtain ⟨dm2, dm2v⟩ := digitChar_ok (m % 10) (by omega)
  obtain ⟨dd1, dd1v⟩ := digitChar_ok (d / 10 % 10) (by omega)
  obtain ⟨dd2, dd2v⟩ := digitChar_ok (d % 10) (by omega)
  obtain ⟨dh1, dh1v⟩ := digitChar_ok (hh / 10 % 10) (by omega)
  obtain ⟨dh2, dh2v⟩ := digitChar_ok (hh % 10) (by omega)
  obtain ⟨di1, di1v⟩ := digitChar_ok (mi / 10 % 10) (by omega)
  obtain ⟨di2, di2v⟩ := digitChar_ok (mi % 10) (by omega)
  obtain ⟨ds1, ds1v⟩ := digitChar_ok (ss / 10 % 10) (by omega)
  obtain ⟨ds2, ds2v⟩ := digitChar_ok (ss % 10) (by omega)
  have hd99 : d ≤ 31 := Nat.le_trans hd2 (monthLen_le31 y m)
  have hyv : 1000 * (y / 1000 % 10) + 100 * (y / 100 % 10) + 10 * (y / 10 % 10)
      + y % 10 = y := by omega
  have hmv : 10 * (m / 10 % 10) + m % 10 = m := by omega
  have hdv : 10 * (d / 10 % 10) + d % 10 = d := by omega
  have hhv : 10 * (hh / 10 % 10) + hh % 10 = hh := by omega
  have hiv : 10 * (mi / 10 % 10) + mi % 10 = mi := by omega
  have hsv : 10 * (ss / 10 % 10) + ss % 10 = ss := by omega
  have f0 : ('0').isDigit = true := by decide
  have f0v : digVal '0' = 0 := by decide
  simp only [parseISO8601UTC, isoOfParts, pad4, pad2, List.cons_append,
    List.nil_append, parseISOChars, dy1, dy2, dy3, dy4, dm1, dm2, dd1, dd2,
    dh1, dh2, di1, di2, ds1, ds2, f0, and_true, true_and, and_self, if_true,
    dy1v, dy2v, dy3v, dy4v, dm1v, dm2v, dd1v, dd2v, dh1v, dh2v, di1v, di2v,
    ds1v, ds2v, f0v, hyv, hmv, hdv, hhv, hiv, hsv, Nat.mul_zero, Nat.add_zero,
    mul_zero, add_zero]
  rw [if_pos ⟨hy1, hy2, hm1, hm2, hd1, hd2, hhh, hmi, hss⟩]

theorem monthLengths_sum_daysInYear (y : Nat) :
    (monthLengths (isLeap y)).sum = daysInYear y := by
  rw [monthLengths_sum, daysInYear]

theorem parse_toISOString (t : Int) (h0 : 0 ≤ t) (h1 : t < 253402300800) :
    parseISO8601UTC (toISOString t) = some (1000 * t) := by
  have hn : (t.toNat : Int) = t := Int.toNat_of_nonneg h0
  set n := t.toNat with hnEq
  have hnb : n < 253402300800 := by omega
  have hpre : n / 86400 < daysBetween 1970 9000 := by
    have := daysBetween_lower 9000 1970
    omega
  obtain ⟨hy1, hy2, hy3, hy4⟩ := findYear_spec 9000 1970 (n / 86400) hpre
  set yd := findYear 9000 1970 (n / 86400) with hydEq
  have hyle : yd.1 ≤ 9999 := by
    by_contra hgt
    have h8030 : 8030 ≤ yd.1 - 1970 := by omega
    have hmono := daysBetween_mono 1970 8030 (yd.1 - 1970) h8030
    rw [daysBetween_1970_8030] at hmono
    omega
  have hsum : yd.2 < (monthLengths (isLeap yd.1)).sum := by
    rw [monthLengths_sum_daysInYear]
    exact hy3
  obtain ⟨hm1, hm2, hm3, hm4⟩ :=
    findMonth_spec (monthLengths (isLeap yd.1)) 1 yd.2 hsum
  set md := findMonth (monthLengths (isLeap yd.1)) 1 yd.2 with hmdEq
  have hml : (monthLengths (isLeap yd.1)).length = 12 := monthLengths_length _
  have htiso : toISOString t = isoOfParts yd.1 md.1 (md.2 + 1)
      (n % 86400 / 3600) (n % 86400 % 3600 / 60) (n % 86400 % 60) := rfl
  rw [htiso, parseISO_isoOfParts yd.1 md.1 (md.2 + 1) (n % 86400 / 3600)
    (n % 86400 % 3600 / 60) (n % 86400 % 60) hy1 hyle hm1 (by omega)
    (by omega) (by exact hm3) (by omega) (by omega) (by omega)]
  have hdfc : daysFromCivil yd.1 md.1 (md.2 + 1) = n / 86400 := by
    unfold daysFromCivil
    omega
  rw [hdfc]
  have harith : n / 86400 * 86400000 + n % 86400 / 3600 * 3600000
      + n % 86400 % 3600 / 60 * 60000 + n % 86400 % 60 * 1000 = 1000 * n := by
    omega
  rw [harith]
  congr 1
  omega

/-! ## General lemmas about the operations -/

theorem containsStr_middle (a b c : String) : containsStr (a ++ b ++ c) b :=
  ⟨a.data, c.data, by simp [String.data_append]⟩

theorem getStatement_of_parse_error (env : Env) (args : JsonValue)
    (issues : List ZodIssue) (h : zodParseGetStatementArgs args = .error issues) :
    getStatement env args = (.error (.zodError issues), []) := by
  unfold getStatement
  rw [h]

theorem getStatement_of_ok (env : Env) (args : JsonValue) (p : GetStatementArgs)
    (r : HttpResponse (List StatementItem))
    (hp : zodParseGetStatementArgs args = .ok p)
    (hr : env.statementResult = .ok r) (hok : statusOk r.status = true) :
    getStatement env args = (.ok (.statement (r.body.map processItem)),
      [FetchRequest.statement (effectiveToken env) p.account_id p.from_timestamp
        (if p.to_timestamp = 0 then ((env.nowMs.fdiv 1000 : Int) : ℚ)
         else p.to_timestamp)]) := by
  unfold getStatement
  rw [hp, hr]
  simp [hok]

instance {ε α : Type _} [DecidableEq ε] [DecidableEq α] : DecidableEq (Except ε α) := fun x y =>
  match x, y with
  | .ok a, .ok b =>
      if h : a = b then .isTrue (by rw [h])
      else .isFalse (fun hc => h (by injection hc))
  | .error a, .error b =>
      if h : a = b then .isTrue (by rw [h])
      else .isFalse (fun hc => h (by injection hc))
  | .ok _, .error _ => .isFalse (fun hc => Except.noConfusion hc)
  | .error _, .ok _ => .isFalse (fun hc => Except.noConfusion hc)

/-- Does `p` occur at the start of `c`? -/
def beginsWithList : List Char → List Char → Bool
  | [], _ => true
  | _ :: _, [] => false
  | p :: ps, c :: cs => p == c && beginsWithList ps cs

/-- Does the message `msg` begin with `pre`? -/
def beginsWith (pre msg : String) : Bool := beginsWithList pre.data msg.data

theorem beginsWithList_append : ∀ p r : List Char, beginsWithList p (p ++ r) = true := by
  intro p
  induction p with
  | nil => intro r; rfl
  | cons c cs ih => intro r; simp [beginsWithList, ih]

theorem beginsWith_wrapMsg (m : String) :
    beginsWith "Failed to connect to Monobank API: " (wrapMsg m) = true := by
  unfold beginsWith wrapMsg
  rw [String.data_append]
  exact beginsWithList_append _ _

/-! ## Concrete fixtures used by the witnesses -/

/-- A concrete raw statement item (time `1700000000`, amount 15000 minor
units). -/
def sampleItem : StatementItem :=
  { id := "a1b2c3", time := 1700000000, description := "coffee", mcc := 5411,
    originalMcc := 5411, hold := false, amount := 15000,
    operationAmount := 15000, currencyCode := 980, commissionRate := 0,
    cashbackAmount := 150, balance := 250000, comment := some "morning",
    receiptId := none, invoiceId := some "inv-1", counterEdrpou := none,
    counterIban := some "UA00", counterName := none }

/-- A concrete client profile. -/
def sampleClientInfo : ClientInfo :=
  { clientId := "c1", name := "Jane Doe", webHookUrl := "", permissions := "psf",
    accounts := [], jars := none }

/-- A world where both upstream calls succeed. -/
def okEnv : Env :=
  { token := some "tok", nowMs := 1700000123456,
    clientInfoResult := .ok ⟨200, "", sampleClientInfo⟩,
    statementResult := .ok ⟨200, "", [sampleItem]⟩ }

/-- A world where both upstream calls are rejected with HTTP 401 and the
body `invalid token`. -/
def unauthorizedEnv : Env :=
  { token := none, nowMs := 1700000123456,
    clientInfoResult := .ok ⟨401, "invalid token", sampleClientInfo⟩,
    statementResult := .ok ⟨401, "invalid token", []⟩ }

/-- Valid `get_statement` arguments with a nonzero `to_timestamp`. -/
def validArgs : JsonValue :=
  .obj [("account_id", .str "0"), ("from_timestamp", .num 1700000000),
        ("to_timestamp", .num 1700003600)]

/-- The record `validArgs` parses to. -/
def validParsed : GetStatementArgs := ⟨"0", 1700000000, 1700003600⟩

/-! ## Claims -/

/-- C1: for every valid `get_statement` invocation, the emitted payload
is the elementwise normalization of the upstream sequence, and each
normalized item's `amount`, `operationAmount`, `commissionRate`,
`cashbackAmount` and `balance` equal the corresponding raw field divided
by 100 exactly. -/
theorem c1_amounts_divided_by_100 (env : Env) (args : JsonValue)
    (p : GetStatementArgs) (r : HttpResponse (List StatementItem))
    (hp : zodParseGetStatementArgs args = .ok p)
    (hr : env.statementResult = .ok r) (hok : statusOk r.status = true) :
    (getStatement env args).1 = .ok (.statement (r.body.map processItem)) ∧
    ∀ item ∈ r.body,
      (processItem item).amount = item.amount / 100 ∧
      (processItem item).operationAmount = item.operationAmount / 100 ∧
      (processItem item).commissionRate = item.commissionRate / 100 ∧
      (processItem item).cashbackAmount = item.cashbackAmount / 100 ∧
      (processItem item).balance = item.balance / 100 := by
  refine ⟨by rw [getStatement_of_ok env args p r hp hr hok], ?_⟩
  intro item _
  exact ⟨rfl, rfl, rfl, rfl, rfl⟩

/-- Witness for C1 at a concrete invocation: one raw item with amount
15000 minor units is normalized to amount 150. -/
theorem c1_witness :
    zodParseGetStatementArgs validArgs = .ok validParsed ∧
    okEnv.statementResult = .ok ⟨200, "", [sampleItem]⟩ ∧
    statusOk 200 = true ∧
    ((getStatement okEnv validArgs).1 = .ok (.statement ([sampleItem].map processItem)) ∧
     ∀ item ∈ [sampleItem],
       (processItem item).amount = item.amount / 100 ∧
       (processItem item).operationAmount = item.operationAmount / 100 ∧
       (processItem item).commissionRate = item.commissionRate / 100 ∧
       (processItem item).cashbackAmount = item.cashbackAmount / 100 ∧
       (processItem item).balance = item.balance / 100) ∧
    (processItem sampleItem).amount = 150 :=
  ⟨by decide, rfl, by decide,
   c1_amounts_divided_by_100 okEnv validArgs validParsed ⟨200, "", [sampleItem]⟩
     (by decide) rfl (by decide),
   by norm_num [processItem, sampleItem]⟩

/-- C2: for every valid `get_statement` invocation, the returned
sequence has the same length as the upstream sequence and its `i`-th
element is the normalization of the `i`-th upstream element: nothing is
reordered, filtered or deduplicated. -/
theorem c2_order_and_length_preserved (env : Env) (args : JsonValue)
    (p : GetStatementArgs) (r : HttpResponse (List StatementItem))
    (hp : zodParseGetStatementArgs args = .ok p)
    (hr : env.statementResult = .ok r) (hok : statusOk r.status = true) :
    (getStatement env args).1 = .ok (.statement (r.body.map processItem)) ∧
    (r.body.map processItem).length = r.body.length ∧
    ∀ (i : Nat) (h1 : i < (r.body.map processItem).length) (h2 : i < r.body.length),
      (r.body.map processItem).get ⟨i, h1⟩ = processItem (r.body.get ⟨i, h2⟩) := by
  refine ⟨by rw [getStatement_of_ok env args p r hp hr hok], List.length_map _ _, ?_⟩
  intro i h1 h2
  simp

/-- Witness for C2 at a concrete invocation with a one-element upstream
sequence. -/
theorem c2_witness :
    zodParseGetStatementArgs validArgs = .ok validParsed ∧
    okEnv.statementResult = .ok ⟨200, "", [sampleItem]⟩ ∧
    statusOk 200 = true ∧
    ((getStatement okEnv validArgs).1 = .ok (.statement ([sampleItem].map processItem)) ∧
     ([sampleItem].map processItem).length = [sampleItem].length ∧
     ∀ (i : Nat) (h1 : i < ([sampleItem].map processItem).length)
       (h2 : i < [sampleItem].length),
       ([sampleItem].map processItem).get ⟨i, h1⟩ =
         processItem ([sampleItem].get ⟨i, h2⟩)) :=
  ⟨by decide, rfl, by decide,
   c2_order_and_length_preserved okEnv validArgs validParsed ⟨200, "", [sampleItem]⟩
     (by decide) rfl (by decide)⟩

set_option maxRecDepth 10000 in
/-- C3: for every raw item with a representable Unix-seconds timestamp
(nonnegative and before year 10000), the normalized `time` field is the
ISO-8601 UTC rendering of the raw instant: the specification-level
reader accepts it and recovers exactly the raw instant (in Unix
milliseconds), and raw time `1700000000` is rendered as
`2023-11-14T22:13:20.000Z`. -/
theorem c3_time_iso8601_utc (item : StatementItem) (h0 : 0 ≤ item.time)
    (h1 : item.time < 253402300800) :
    (processItem item).time = toISOString item.time ∧
    parseISO8601UTC ((processItem item).time) = some (1000 * item.time) ∧
    (item.time = 1700000000 →
      (processItem item).time = "2023-11-14T22:13:20.000Z") := by
  refine ⟨rfl, parse_toISOString item.time h0 h1, ?_⟩
  intro he
  show toISOString item.time = _
  rw [he]
  decide

/-- Witness for C3 at the concrete raw time `1700000000`. -/
theorem c3_witness :
    0 ≤ sampleItem.time ∧ sampleItem.time < 253402300800 ∧
    ((processItem sampleItem).time = toISOString sampleItem.time ∧
     parseISO8601UTC ((processItem sampleItem).time) = some (1000 * sampleItem.time) ∧
     (sampleItem.time = 1700000000 →
       (processItem sampleItem).time = "2023-11-14T22:13:20.000Z")) :=
  ⟨by decide, by decide, c3_time_iso8601_utc sampleItem (by decide) (by decide)⟩

/-- C4: for every valid `get_statement` invocation, each emitted item's
serialized object carries no `id`, `invoiceId`, `counterEdrpou` or
`counterIban` key, while `description`, `mcc`, `originalMcc`, `hold`,
`currencyCode` and the optional `comment`, `receiptId`, `counterName`
are present exactly as in the raw item. -/
theorem c4_dropped_and_copied_fields (env : Env) (args : JsonValue)
    (p : GetStatementArgs) (r : HttpResponse (List StatementItem))
    (hp : zodParseGetStatementArgs args = .ok p)
    (hr : env.statementResult = .ok r) (hok : statusOk r.status = true) :
    (getStatement env args).1 = .ok (.statement (r.body.map processItem)) ∧
    ∀ item ∈ r.body,
      ((processItem item).toJsonObj.lookup "id" = none ∧
       (processItem item).toJsonObj.lookup "invoiceId" = none ∧
       (processItem item).toJsonObj.lookup "counterEdrpou" = none ∧
       (processItem item).toJsonObj.lookup "counterIban" = none) ∧
      ((processItem item).toJsonObj.lookup "description" = some (.str item.description) ∧
       (processItem item).toJsonObj.lookup "mcc" = some (.num item.mcc) ∧
       (processItem item).toJsonObj.lookup "originalMcc" = some (.num item.originalMcc) ∧
       (processItem item).toJsonObj.lookup "hold" = some (.bool item.hold) ∧
       (processItem item).toJsonObj.lookup "currencyCode" = some (.num item.currencyCode) ∧
       (processItem item).toJsonObj.lookup "comment" = item.comment.map JsonValue.str ∧
       (processItem item).toJsonObj.lookup "receiptId" = item.receiptId.map JsonValue.str ∧
       (processItem item).toJsonObj.lookup "counterName" = item.counterName.map JsonValue.str) := by
  refine ⟨by rw [getStatement_of_ok env args p r hp hr hok], ?_⟩
  intro item _
  obtain ⟨i1, i2, i3, i4, i5, i6, i7, i8, i9, i10, i11, i12, ic, ir, ii, ie, ib, icn⟩ := item
  rcases ic with _ | c <;> rcases ir with _ | rc <;> rcases icn with _ | cn <;>
    exact ⟨⟨rfl, rfl, rfl, rfl⟩, rfl, rfl, rfl, rfl, rfl, rfl, rfl, rfl⟩

/-- Witness for C4 at a concrete invocation: the sample item carries a
comment and none of the dropped keys. -/
theorem c4_witness :
    zodParseGetStatementArgs validArgs = .ok validParsed ∧
    okEnv.statementResult = .ok ⟨200, "", [sampleItem]⟩ ∧
    statusOk 200 = true ∧
    ((getStatement okEnv validArgs).1 = .ok (.statement ([sampleItem].map processItem)) ∧
     ∀ item ∈ [sampleItem],
       ((processItem item).toJsonObj.lookup "id" = none ∧
        (processItem item).toJsonObj.lookup "invoiceId" = none ∧
        (processItem item).toJsonObj.lookup "counterEdrpou" = none ∧
        (processItem item).toJsonObj.lookup "counterIban" = none) ∧
       ((processItem item).toJsonObj.lookup "description" = some (.str item.description) ∧
        (processItem item).toJsonObj.lookup "mcc" = some (.num item.mcc) ∧
        (processItem item).toJsonObj.lookup "originalMcc" = some (.num item.originalMcc) ∧
        (processItem item).toJsonObj.lookup "hold" = some (.bool item.hold) ∧
        (processItem item).toJsonObj.lookup "currencyCode" = some (.num item.currencyCode) ∧
        (processItem item).toJsonObj.lookup "comment" = item.comment.map JsonValue.str ∧
        (processItem item).toJsonObj.lookup "receiptId" = item.receiptId.map JsonValue.str ∧
        (processItem item).toJsonObj.lookup "counterName" = item.counterName.map JsonValue.str)) :=
  ⟨by decide, rfl, by decide,
   c4_dropped_and_copied_fields okEnv validArgs validParsed ⟨200, "", [sampleItem]⟩
     (by decide) rfl (by decide)⟩

theorem mem_strFieldIssues (fields : List (String × JsonValue)) (k : String)
    (iss : ZodIssue) (hm : iss ∈ strFieldIssues fields k) : iss.path = [k] := by
  unfold strFieldIssues at hm
  split at hm
  · simp at hm
  · simp at hm
    rw [hm]

theorem mem_numFieldIssues (fields : List (String × JsonValue)) (k : String)
    (iss : ZodIssue) (hm : iss ∈ numFieldIssues fields k) : iss.path = [k] := by
  unfold numFieldIssues at hm
  split at hm
  · simp at hm
  · simp at hm
    rw [hm]

theorem numFieldIssues_of_missing (fields : List (String × JsonValue)) (k : String)
    (h : getField fields k = .undefined) :
    numFieldIssues fields k = [⟨[k], "number", "undefined"⟩] := by
  unfold numFieldIssues
  rw [h]
  rfl

/-- C5: whenever `get_statement` arguments violate the declared schema,
the call fails with the `ZodError` (its issues name the offending
fields; a missing `from_timestamp` yields an issue whose path is
`["from_timestamp"]`) and the list of issued network requests is empty. -/
theorem c5_validation_error_no_network (env : Env) (args : JsonValue)
    (issues : List ZodIssue)
    (h : zodParseGetStatementArgs args = .error issues) :
    getStatement env args = (.error (.zodError issues), []) ∧
    issues ≠ [] ∧
    (∀ iss ∈ issues, iss.path = [] ∨ iss.path = ["account_id"] ∨
      iss.path = ["from_timestamp"] ∨ iss.path = ["to_timestamp"]) ∧
    (∀ fields, args = .obj fields → getField fields "from_timestamp" = .undefined →
      (⟨["from_timestamp"], "number", "undefined"⟩ : ZodIssue) ∈ issues) := by
  refine ⟨getStatement_of_parse_error env args issues h, ?_⟩
  cases args with
  | obj fields =>
      simp only [zodParseGetStatementArgs] at h
      by_cases hc : strFieldIssues fields "account_id"
          ++ numFieldIssues fields "from_timestamp"
          ++ numFieldIssues fields "to_timestamp" = []
      · rw [if_pos hc] at h
        exact absurd h (by simp)
      · rw [if_neg hc] at h
        injection h with h'
        subst h'
        refine ⟨hc, ?_, ?_⟩
        · intro iss hm
          rcases List.mem_append.mp hm with hm' | hm'
          · rcases List.mem_append.mp hm' with hm'' | hm''
            · exact Or.inr (Or.inl (mem_strFieldIssues fields "account_id" iss hm''))
            · exact Or.inr (Or.inr (Or.inl (mem_numFieldIssues fields "from_timestamp" iss hm'')))
          · exact Or.inr (Or.inr (Or.inr (mem_numFieldIssues fields "to_timestamp" iss hm')))
        · intro fields' heq hmiss
          injection heq with heq'
          subst heq'
          rw [numFieldIssues_of_missing fields "from_timestamp" hmiss]
          exact List.mem_append.mpr (Or.inl (List.mem_append.mpr (Or.inr (by simp))))
  | str s =>
      simp only [zodParseGetStatementArgs] at h
      injection h with h'
      subst h'
      exact ⟨by simp, by intro iss hm; simp at hm; simp [hm], by intro fields heq; simp at heq⟩
  | num n =>
      simp only [zodParseGetStatementArgs] at h
      injection h with h'
      subst h'
      exact ⟨by simp, by intro iss hm; simp at hm; simp [hm], by intro fields heq; simp at heq⟩
  | bool b =>
      simp only [zodParseGetStatementArgs] at h
      injection h with h'
      subst h'
      exact ⟨by simp, by intro iss hm; simp at hm; simp [hm], by intro fields heq; simp at heq⟩
  | null =>
      simp only [zodParseGetStatementArgs] at h
      injection h with h'
      subst h'
      exact ⟨by simp, by intro iss hm; simp at hm; simp [hm], by intro fields heq; simp at heq⟩
  | undefined =>
      simp only [zodParseGetStatementArgs] at h
      injection h with h'
      subst h'
      exact ⟨by simp, by intro iss hm; simp at hm; simp [hm], by intro fields heq; simp at heq⟩
  | arr elems =>
      simp only [zodParseGetStatementArgs] at h
      injection h with h'
      subst h'
      exact ⟨by simp, by intro iss hm; simp at hm; simp [hm], by intro fields heq; simp at heq⟩

/-- Arguments missing `from_timestamp` (and with an extra unknown key). -/
def missingFromArgs : JsonValue :=
  .obj [("account_id", .str "0"), ("to_timestamp", .num 1700003600),
        ("note", .str "extra")]

/-- The issue list `missingFromArgs` produces. -/
def missingFromIssues : List ZodIssue := [⟨["from_timestamp"], "number", "undefined"⟩]

/-- Witness for C5: a concrete call with `from_timestamp` missing fails
with the `ZodError` naming `from_timestamp` and issues no request. -/
theorem c5_witness :
    zodParseGetStatementArgs missingFromArgs = .error missingFromIssues ∧
    (getStatement okEnv missingFromArgs = (.error (.zodError missingFromIssues), []) ∧
     missingFromIssues ≠ [] ∧
     (∀ iss ∈ missingFromIssues, iss.path = [] ∨ iss.path = ["account_id"] ∨
       iss.path = ["from_timestamp"] ∨ iss.path = ["to_timestamp"]) ∧
     (∀ fields, missingFromArgs = .obj fields →
       getField fields "from_timestamp" = .undefined →
       (⟨["from_timestamp"], "number", "undefined"⟩ : ZodIssue) ∈ missingFromIssues)) :=
  ⟨by decide, c5_validation_error_no_network okEnv missingFromArgs missingFromIssues (by decide)⟩

/-- C6: for every valid invocation, exactly one statement request is
issued; its end timestamp is the parsed `to_timestamp` when that value
is nonzero, and `Math.floor(Date.now() / 1000)` when it is the falsy
number 0. -/
theorem c6_to_timestamp_defaulting (env : Env) (args : JsonValue)
    (p : GetStatementArgs) (hp : zodParseGetStatementArgs args = .ok p) :
    (getStatement env args).2 = [FetchRequest.statement (effectiveToken env)
      p.account_id p.from_timestamp
      (if p.to_timestamp = 0 then ((env.nowMs.fdiv 1000 : Int) : ℚ)
       else p.to_timestamp)] ∧
    (p.to_timestamp = 0 →
      (getStatement env args).2 = [FetchRequest.statement (effectiveToken env)
        p.account_id p.from_timestamp ((env.nowMs.fdiv 1000 : Int) : ℚ)]) ∧
    (p.to_timestamp ≠ 0 →
      (getStatement env args).2 = [FetchRequest.statement (effectiveToken env)
        p.account_id p.from_timestamp p.to_timestamp]) := by
  have hbase : (getStatement env args).2 = [FetchRequest.statement
      (effectiveToken env) p.account_id p.from_timestamp
      (if p.to_timestamp = 0 then ((env.nowMs.fdiv 1000 : Int) : ℚ)
       else p.to_timestamp)] := by
    unfold getStatement
    rw [hp]
    rcases hsr : env.statementResult with e | r
    · rfl
    · by_cases hok : statusOk r.status = true
      · simp [hok]
      · simp [hok]
  refine ⟨hbase, ?_, ?_⟩
  · intro h0
    rw [hbase, if_pos h0]
  · intro hne
    rw [hbase, if_neg hne]

/-- Valid arguments whose `to_timestamp` is the falsy number 0. -/
def zeroToArgs : JsonValue :=
  .obj [("account_id", .str "0"), ("from_timestamp", .num 1700000000),
        ("to_timestamp", .num 0)]

/-- The record `zeroToArgs` parses to. -/
def zeroToParsed : GetStatementArgs := ⟨"0", 1700000000, 0⟩

/-- Witness for C6 at a concrete call with `to_timestamp = 0` against a
clock reading `1700000123456` ms: the issued request carries end
timestamp `1700000123`. -/
theorem c6_witness :
    zodParseGetStatementArgs zeroToArgs = .ok zeroToParsed ∧
    ((getStatement okEnv zeroToArgs).2 = [FetchRequest.statement (effectiveToken okEnv)
      zeroToParsed.account_id zeroToParsed.from_timestamp
      (if zeroToParsed.to_timestamp = 0 then ((okEnv.nowMs.fdiv 1000 : Int) : ℚ)
       else zeroToParsed.to_timestamp)] ∧
     (zeroToParsed.to_timestamp = 0 →
       (getStatement okEnv zeroToArgs).2 = [FetchRequest.statement (effectiveToken okEnv)
         zeroToParsed.account_id zeroToParsed.from_timestamp
         ((okEnv.nowMs.fdiv 1000 : Int) : ℚ)]) ∧
     (zeroToParsed.to_timestamp ≠ 0 →
       (getStatement okEnv zeroToArgs).2 = [FetchRequest.statement (effectiveToken okEnv)
         zeroToParsed.account_id zeroToParsed.from_timestamp
         zeroToParsed.to_timestamp])) ∧
    ((okEnv.nowMs.fdiv 1000 : Int) : ℚ) = 1700000123 :=
  ⟨by decide, c6_to_timestamp_defaulting okEnv zeroToArgs zeroToParsed (by decide),
   by
     show ((Int.fdiv 1700000123456 1000 : Int) : ℚ) = 1700000123
     norm_num [show Int.fdiv 1700000123456 1000 = 1700000123 from by decide]⟩

theorem getClientInfo_of_http_error (env : Env) (rc : HttpResponse ClientInfo)
    (hc : env.clientInfoResult = .ok rc) (hnc : statusOk rc.status = false) :
    getClientInfo env = (.error (.jsError (wrapMsg (httpErrorMsg rc.status rc.bodyText))),
      [.clientInfo (effectiveToken env)]) := by
  unfold getClientInfo
  rw [hc]
  simp [hnc]

theorem getStatement_of_http_error (env : Env) (args : JsonValue)
    (p : GetStatementArgs) (rs : HttpResponse (List StatementItem))
    (hp : zodParseGetStatementArgs args = .ok p)
    (hs : env.statementResult = .ok rs) (hns : statusOk rs.status = false) :
    (getStatement env args).1 =
      .error (.jsError (wrapMsg (httpErrorMsg rs.status rs.bodyText))) := by
  unfold getStatement
  rw [hp, hs]
  simp [hns]

theorem containsStr_wrapMsg_status (st : Nat) (b : String) :
    containsStr (wrapMsg (httpErrorMsg st b)) (toString st) := by
  refine ⟨("Failed to connect to Monobank API: " ++ "HTTP error! status: ").data,
    (", body: " ++ b).data, ?_⟩
  simp [wrapMsg, httpErrorMsg, String.data_append, List.append_assoc]

theorem containsStr_wrapMsg_body (st : Nat) (b : String) :
    containsStr (wrapMsg (httpErrorMsg st b)) b := by
  refine ⟨("Failed to connect to Monobank API: " ++ ("HTTP error! status: "
    ++ toString st ++ ", body: ")).data, [], ?_⟩
  simp [wrapMsg, httpErrorMsg, String.data_append, List.append_assoc]

/-- C7: on a non-success upstream status, both operations fail (the
outcome is an error, never a partial payload) with a wrapped message
that carries the decimal status code and the response body text. -/
theorem c7_upstream_error_message (env : Env) (args : JsonValue)
    (p : GetStatementArgs) (rc : HttpResponse ClientInfo)
    (rs : HttpResponse (List StatementItem))
    (hc : env.clientInfoResult = .ok rc) (hnc : statusOk rc.status = false)
    (hp : zodParseGetStatementArgs args = .ok p)
    (hs : env.statementResult = .ok rs) (hns : statusOk rs.status = false) :
    ((getClientInfo env).1 =
        .error (.jsError (wrapMsg (httpErrorMsg rc.status rc.bodyText))) ∧
     containsStr (wrapMsg (httpErrorMsg rc.status rc.bodyText)) (toString rc.status) ∧
     containsStr (wrapMsg (httpErrorMsg rc.status rc.bodyText)) rc.bodyText) ∧
    ((getStatement env args).1 =
        .error (.jsError (wrapMsg (httpErrorMsg rs.status rs.bodyText))) ∧
     containsStr (wrapMsg (httpErrorMsg rs.status rs.bodyText)) (toString rs.status) ∧
     containsStr (wrapMsg (httpErrorMsg rs.status rs.bodyText)) rs.bodyText) :=
  ⟨⟨by rw [getClientInfo_of_http_error env rc hc hnc],
    containsStr_wrapMsg_status rc.status rc.bodyText,
    containsStr_wrapMsg_body rc.status rc.bodyText⟩,
   ⟨getStatement_of_http_error env args p rs hp hs hns,
    containsStr_wrapMsg_status rs.status rs.bodyText,
    containsStr_wrapMsg_body rs.status rs.bodyText⟩⟩

/-- Witness for C7: a stubbed 401 upstream with body `invalid token`
makes both operations fail with a message containing `401` and
`invalid token`. -/
theorem c7_witness :
    unauthorizedEnv.clientInfoResult = .ok ⟨401, "invalid token", sampleClientInfo⟩ ∧
    statusOk 401 = false ∧
    zodParseGetStatementArgs validArgs = .ok validParsed ∧
    unauthorizedEnv.statementResult = .ok ⟨401, "invalid token", []⟩ ∧
    (((getClientInfo unauthorizedEnv).1 =
        .error (.jsError (wrapMsg (httpErrorMsg 401 "invalid token"))) ∧
      containsStr (wrapMsg (httpErrorMsg 401 "invalid token")) (toString 401) ∧
      containsStr (wrapMsg (httpErrorMsg 401 "invalid token")) "invalid token") ∧
     ((getStatement unauthorizedEnv validArgs).1 =
        .error (.jsError (wrapMsg (httpErrorMsg 401 "invalid token"))) ∧
      containsStr (wrapMsg (httpErrorMsg 401 "invalid token")) (toString 401) ∧
      containsStr (wrapMsg (httpErrorMsg 401 "invalid token")) "invalid token")) :=
  ⟨rfl, by decide, by decide, rfl,
   c7_upstream_error_message unauthorizedEnv validArgs validParsed
     ⟨401, "invalid token", sampleClientInfo⟩ ⟨401, "invalid token", []⟩
     rfl (by decide) (by decide) rfl (by decide)⟩

/-- C8 counterexample: a failing invocation (unknown operation name
`foo`) whose surfaced error message is `Unknown tool: foo`, which does
not begin with `Failed to connect to Monobank API: `; the claim that
every failure is wrapped with that message is therefore false on the
code. -/
theorem c8_counterexample :
    handleCallTool okEnv "foo" JsonValue.null =
      (.error (.jsError ("Unknown tool: " ++ "foo")), []) ∧
    beginsWith "Failed to connect to Monobank API: " ("Unknown tool: " ++ "foo")
      = false :=
  ⟨by decide, by decide⟩

/-- C8 (amended): every invocation either fully succeeds, or fails with
no partial result, and the failure is exactly one of: a `ZodError`
surfaced unwrapped by validation, a plain error whose message begins
with `Failed to connect to Monobank API: ` (upstream status, transport
or parse failures caught by the `try` blocks), or the unwrapped
`Unknown tool: <name>` error of the dispatcher; the latter two local
failures issue no network request. -/
theorem c8_error_propagation_amended (env : Env) (name : String) (args : JsonValue) :
    (∃ payload, (handleCallTool env name args).1 = .ok payload) ∨
    (∃ issues, (handleCallTool env name args).1 = .error (.zodError issues) ∧
      (handleCallTool env name args).2 = []) ∨
    (∃ m, (handleCallTool env name args).1 = .error (.jsError (wrapMsg m)) ∧
      beginsWith "Failed to connect to Monobank API: " (wrapMsg m) = true) ∨
    (name ≠ "get_client_info" ∧ name ≠ "get_statement" ∧
      (handleCallTool env name args).1 = .error (.jsError ("Unknown tool: " ++ name)) ∧
      (handleCallTool env name args).2 = []) := by
  unfold handleCallTool
  by_cases h1 : name = "get_client_info"
  · rw [if_pos h1]
    rcases hc : env.clientInfoResult with e | r
    · refine Or.inr (Or.inr (Or.inl ⟨e, ?_, beginsWith_wrapMsg e⟩))
      unfold getClientInfo
      rw [hc]
    · by_cases hok : statusOk r.status = true
      · refine Or.inl ⟨.clientInfo r.body, ?_⟩
        unfold getClientInfo
        rw [hc]
        simp [hok]
      · refine Or.inr (Or.inr (Or.inl ⟨httpErrorMsg r.status r.bodyText, ?_,
          beginsWith_wrapMsg _⟩))
        rw [getClientInfo_of_http_error env r hc (by simpa using hok)]
  · rw [if_neg h1]
    by_cases h2 : name = "get_statement"
    · rw [if_pos h2]
      rcases hz : zodParseGetStatementArgs args with issues | p
      · refine Or.inr (Or.inl ⟨issues, ?_, ?_⟩) <;>
          rw [getStatement_of_parse_error env args issues hz]
      · rcases hs : env.statementResult with e | r
        · refine Or.inr (Or.inr (Or.inl ⟨e, ?_, beginsWith_wrapMsg e⟩))
          unfold getStatement
          rw [hz, hs]
        · by_cases hok : statusOk r.status = true
          · refine Or.inl ⟨.statement (r.body.map processItem), ?_⟩
            rw [getStatement_of_ok env args p r hz hs hok]
          · exact Or.inr (Or.inr (Or.inl ⟨httpErrorMsg r.status r.bodyText,
              getStatement_of_http_error env args p r hz hs (by simpa using hok),
              beginsWith_wrapMsg _⟩))
    · rw [if_neg h2]
      exact Or.inr (Or.inr (Or.inr ⟨h1, h2, rfl, rfl⟩))

/-- C9: dispatching any operation name other than the two known tools
fails with an error naming the requested operation and issues no network
request. -/
theorem c9_unknown_operation (env : Env) (name : String) (args : JsonValue)
    (h1 : name ≠ "get_client_info") (h2 : name ≠ "get_statement") :
    handleCallTool env name args = (.error (.jsError ("Unknown tool: " ++ name)), []) ∧
    containsStr ("Unknown tool: " ++ name) name := by
  refine ⟨?_, ⟨("Unknown tool: ").data, [], by simp [String.data_append]⟩⟩
  unfold handleCallTool
  rw [if_neg h1, if_neg h2]

/-- Witness for C9 at the concrete unknown name `foo`. -/
theorem c9_witness :
    "foo" ≠ "get_client_info" ∧ "foo" ≠ "get_statement" ∧
    (handleCallTool okEnv "foo" JsonValue.null =
      (.error (.jsError ("Unknown tool: " ++ "foo")), []) ∧
     containsStr ("Unknown tool: " ++ "foo") "foo") :=
  ⟨by decide, by decide,
   c9_unknown_operation okEnv "foo" JsonValue.null (by decide) (by decide)⟩

/-- C10: an arguments object carrying the three well-typed declared
fields passes validation whatever extra keys it carries; the extra keys
are stripped by parsing and the whole call behaves exactly as if only
the three declared fields had been sent. -/
theorem c10_extra_keys_stripped (env : Env) (fields : List (String × JsonValue))
    (s : String) (a b : ℚ)
    (ha : getField fields "account_id" = .str s)
    (hf : getField fields "from_timestamp" = .num a)
    (ht : getField fields "to_timestamp" = .num b) :
    zodParseGetStatementArgs (.obj fields) = .ok ⟨s, a, b⟩ ∧
    getStatement env (.obj fields) = getStatement env (.obj
      [("account_id", .str s), ("from_timestamp", .num a),
       ("to_timestamp", .num b)]) := by
  have hA : strFieldIssues fields "account_id" = [] := by
    unfold strFieldIssues
    rw [ha]
  have hF : numFieldIssues fields "from_timestamp" = [] := by
    unfold numFieldIssues
    rw [hf]
  have hT : numFieldIssues fields "to_timestamp" = [] := by
    unfold numFieldIssues
    rw [ht]
  have hVA : strFieldVal fields "account_id" = s := by
    unfold strFieldVal
    rw [ha]
  have hVF : numFieldVal fields "from_timestamp" = a := by
    unfold numFieldVal
    rw [hf]
  have hVT : numFieldVal fields "to_timestamp" = b := by
    unfold numFieldVal
    rw [ht]
  have hz1 : zodParseGetStatementArgs (.obj fields) = .ok ⟨s, a, b⟩ := by
    simp [zodParseGetStatementArgs, hA, hF, hT, hVA, hVF, hVT]
  have hz2 : zodParseGetStatementArgs (.obj
      [("account_id", .str s), ("from_timestamp", .num a),
       ("to_timestamp", .num b)]) = .ok ⟨s, a, b⟩ := by
    simp [zodParseGetStatementArgs, strFieldIssues, numFieldIssues,
      strFieldVal, numFieldVal, getField, List.lookup]
  refine ⟨hz1, ?_⟩
  unfold getStatement
  rw [hz1, hz2]

/-- Valid arguments carrying an extra unrecognized key. -/
def extraKeyArgs : JsonValue :=
  .obj [("account_id", .str "0"), ("from_timestamp", .num 1700000000),
        ("to_timestamp", .num 1700003600), ("verbose", .bool true)]

/-- Witness for C10: the extra `verbose` key neither fails validation
nor changes the call's behavior. -/
theorem c10_witness :
    getField [("account_id", .str "0"), ("from_timestamp", .num 1700000000),
      ("to_timestamp", .num 1700003600), ("verbose", .bool true)] "account_id"
      = .str "0" ∧
    (zodParseGetStatementArgs extraKeyArgs = .ok ⟨"0", 1700000000, 1700003600⟩ ∧
     getStatement okEnv extraKeyArgs = getStatement okEnv (.obj
       [("account_id", .str "0"), ("from_timestamp", .num 1700000000),
        ("to_timestamp", .num 1700003600)])) :=
  ⟨rfl,
   c10_extra_keys_stripped okEnv
     [("account_id", .str "0"), ("from_timestamp", .num 1700000000),
      ("to_timestamp", .num 1700003600), ("verbose", .bool true)]
     "0" 1700000000 1700003600 rfl rfl rfl⟩
